import Mathlib

/-!
A shallow embedding of the `fitbit-api` client library
(`src/fitbit_api/__init__.py`, `src/fitbit_api/exceptions.py`,
`src/fitbit.py`), covering the request dispatcher (`FitbitClient._request`),
the scope/argument validation performed by the generated endpoint methods,
and the scope vocabulary (`ALL_SCOPES`).

Modelling conventions:
* Python values that flow through endpoint parameters are modelled by `PyVal`
  (None, bool, int, str, datetime); Python truthiness by `PyVal.truthy`.
* `datetime.strftime` with format `%Y-%m-%d` is modelled by `strftimeYMD`, rendering the
  year zero-padded to four digits and month/day to two (the behaviour for all
  years representable with four digits).
* Python exceptions are modelled by the `PyErr` sum type; a method that would
  raise returns `Except.error`.
* The HTTP transport (`self.session.request`) is external; it is modelled by a
  function `transport : Nat → Attempt` giving the outcome of the n-th
  transport invocation of a dispatch, and `refresh_token` by its outcome
  `Except String Unit`. The dispatcher records every transport invocation and
  every refresh in a `Trace`.
* The Python method `str.replace` is modelled by `pyReplace` (fuel-based recursion on
  the string length, replacing every occurrence left to right).
* Python `set` literals of scopes are modelled as lists in the literal order
  of the source; set iteration order in CPython is unspecified, the list of
  missing scopes is therefore modelled in literal order.
-/

namespace FitbitApi

/-- Model of a Python `datetime.datetime` restricted to the fields used by the
library (`strftime` with format `%Y-%m-%d` only reads the date fields). -/
structure Datetime where
  year : Nat
  month : Nat
  day : Nat
deriving DecidableEq, Repr

/-- Validity of a Python datetime: CPython enforces
`MINYEAR = 1 ≤ year ≤ 9999 = MAXYEAR`, `1 ≤ month ≤ 12`, `1 ≤ day ≤ 31`. -/
def Datetime.validB (d : Datetime) : Bool :=
  1 ≤ d.year && d.year ≤ 9999 && 1 ≤ d.month && d.month ≤ 12 && 1 ≤ d.day && d.day ≤ 31

/-- Model of the Python values that flow through endpoint parameters. -/
inductive PyVal where
  | pynone
  | pybool (b : Bool)
  | pyint (n : Int)
  | pystr (s : String)
  | pydate (d : Datetime)
deriving DecidableEq, Repr

/-- Python truthiness of a string: non-empty strings are truthy. -/
def strTruthy (s : String) : Bool := !s.data.isEmpty

/-- Python truthiness: `None`, `False`, `0` and the empty string are falsy; a
`datetime` object is always truthy. -/
def PyVal.truthy : PyVal → Bool
  | .pynone => false
  | .pybool b => b
  | .pyint n => n ≠ 0
  | .pystr s => strTruthy s
  | .pydate _ => true

/-- Model of `isinstance(v, datetime)`. -/
def PyVal.isDatetime : PyVal → Bool
  | .pydate _ => true
  | _ => false

/-- The decimal digit character for `n % 10`. -/
def digitChar (n : Nat) : Char := Char.ofNat (48 + n % 10)

/-- Two-digit zero-padded rendering (`%m`, `%d`). -/
def pad2 (n : Nat) : List Char := [digitChar (n / 10), digitChar n]

/-- Four-digit zero-padded rendering (`%Y` for representable years). -/
def pad4 (n : Nat) : List Char :=
  [digitChar (n / 1000), digitChar (n / 100), digitChar (n / 10), digitChar n]

/-- Model of `d.strftime` with format `%Y-%m-%d`. -/
def strftimeYMD (d : Datetime) : String :=
  ⟨pad4 d.year ++ '-' :: pad2 d.month ++ '-' :: pad2 d.day⟩

/-- Model of the attribute call `v.strftime` with format `%Y-%m-%d`; only reached on
datetime values in the source. -/
def PyVal.strftime : PyVal → String
  | .pydate d => strftimeYMD d
  | _ => ""

/-- Character-level check for the shape `YYYY-MM-DD`: exactly ten characters,
digits in the year/month/day positions and dashes at positions 4 and 7. -/
def isYMDChars : List Char → Bool
  | [y1, y2, y3, y4, s1, m1, m2, s2, d1, d2] =>
    y1.isDigit && y2.isDigit && y3.isDigit && y4.isDigit && s1 = '-' &&
    m1.isDigit && m2.isDigit && s2 = '-' && d1.isDigit && d2.isDigit
  | _ => false

/-- Checks that a string has exactly the shape `YYYY-MM-DD`. -/
def isYMD (s : String) : Bool := isYMDChars s.data

/-- Fuel-based worker for `pyReplace`: replaces every occurrence of `pat`
left to right, as Python `str.replace` does. -/
def replaceAux (pat rep : List Char) : Nat → List Char → List Char
  | 0, l => l
  | _ + 1, [] => []
  | fuel + 1, c :: rest =>
    if pat.isPrefixOf (c :: rest) then
      rep ++ replaceAux pat rep fuel ((c :: rest).drop pat.length)
    else
      c :: replaceAux pat rep fuel rest

/-- Model of Python `s.replace(pat, rep)` for non-empty `pat`. -/
def pyReplace (s pat rep : String) : String :=
  ⟨replaceAux pat.data rep.data s.data.length s.data⟩

/-- A single-quote character, used when rendering Python string literals. -/
def sq : String := String.singleton (Char.ofNat 39)

/-- Model of Python `str(list_of_strings)`, as produced by
the `format` calls that interpolate an enum list or the missing-scope list
into an error message. -/
def pyStrList (l : List String) : String :=
  "[" ++ String.intercalate ", " (l.map fun s => sq ++ s ++ sq) ++ "]"

/-- The `ValueError` message `Argument <name> must be a datetime object.`
(with the name single-quoted as in the source). -/
def dateErrMsg (name : String) : String :=
  "Argument " ++ sq ++ name ++ sq ++ " must be a datetime object."

/-- The `ValueError` message
`Argument <name> must be one of the following: <enum>`
(with the name single-quoted as in the source). -/
def enumErrMsg (name : String) (enum : List String) : String :=
  "Argument " ++ sq ++ name ++ sq ++ " must be one of the following: " ++ pyStrList enum

/-- The `InsufficientScope` message
`This application needs additional scope <missing> for this request.`. -/
def scopeErrMsg (missing : List String) : String :=
  "This application needs additional scope " ++ pyStrList missing ++ " for this request."

/-- Model of the Python exceptions raised (or propagated) by the library:
`ValueError`, `fitbit_api.exceptions.InsufficientScope` (which carries its
message; the list of missing scopes is kept alongside),
`fitbit_api.exceptions.RateLimitException` (carrying `retry_after`),
`KeyError` (from the header lookup of `Retry-After`),
the `TokenExpiredError` of `oauthlib`, and any other transport-level
exception. -/
inductive PyErr where
  | valueError (msg : String)
  | insufficientScope (missing : List String) (msg : String)
  | rateLimit (retry_after : String)
  | keyError (key : String)
  | tokenExpired
  | transportError (msg : String)
deriving DecidableEq, Repr

/-- `fitbit_api.ALL_SCOPES`, transcribed literally from the source
(`src/fitbit_api/__init__.py` lines 7-18; `src/fitbit.py` lines 4-15 list the
same ten literals). -/
def ALL_SCOPES : List String :=
  ["activity", "nutrition", "heartrate", "location", "nutrition",
   "profile", "settings", "sleep", "social", "weight"]

/-- Model of the default `scope = scope or ALL_SCOPES` performed by
`create_using_token`, `OAuth2_step_one` and `OAuth2_step_two`: a falsy scope
argument (`None` or the empty list) selects `ALL_SCOPES`. -/
def resolveScope : Option (List String) → List String
  | none => ALL_SCOPES
  | some l => if l.isEmpty then ALL_SCOPES else l

/-- The nine-element required-scope set shared by the generated activity
endpoints, in the literal order of the source. -/
def requiredScope9 : List String :=
  ["activity", "heartrate", "location", "nutrition", "profile",
   "settings", "sleep", "social", "weight"]

/-- The missing scopes
`[scope for scope in required_scope if scope not in self.session.scope]`. -/
def missingScope (required granted : List String) : List String :=
  required.filter fun s => !granted.contains s

/-- Model of the scope guard
`if not all(scope in self.session.scope for scope in required_scope): raise
InsufficientScope(...)` shared by every endpoint method. -/
def checkScope (required granted : List String) : Option PyErr :=
  if required.all (fun s => granted.contains s) then none
  else some (.insufficientScope (missingScope required granted)
    (scopeErrMsg (missingScope required granted)))

/-- The request an endpoint method hands to the dispatcher: the HTTP verb, the
relative endpoint path after placeholder substitution, and the parameter
mapping (in insertion order). -/
structure EndpointCall where
  method : String
  endpoint : String
  params : List (String × PyVal)
deriving DecidableEq, Repr

/-- The eleven-value allow-list for `resource_path` in the activity
time-series endpoints. -/
def resourcePathEnum : List String :=
  ["calories", "caloriesBMR", "steps", "distance", "floors", "elevation",
   "minutesSedentary", "minutesLightlyActive", "minutesFairlyActive",
   "minutesVeryActive", "activityCalories"]

/-- Model of `FitbitClient.get_activities_by_date` (source lines 185-217):
date type check, `strftime` normalization, scope guard, placeholder
substitution, then `self._get(endpoint)`. -/
def get_activities_by_date (granted : List String) (date : PyVal) :
    Except PyErr EndpointCall :=
  if !date.isDatetime then .error (.valueError (dateErrMsg "date")) else
  let dateS := if date.truthy then date.strftime else ""
  match checkScope requiredScope9 granted with
  | some e => .error e
  | none =>
    .ok ⟨"get", pyReplace "/1/user/-/activities/date/{date}.json" "{date}" dateS, []⟩

/-- Model of `FitbitClient.get_activities_resource_by_date_range`
(source lines 219-283): two date checks, the `resource_path` enum check, the
scope guard, three placeholder substitutions, then `self._get(endpoint)`. -/
def get_activities_resource_by_date_range (granted : List String)
    (resource_path : String) (base_date end_date : PyVal) :
    Except PyErr EndpointCall :=
  if !base_date.isDatetime then .error (.valueError (dateErrMsg "base_date")) else
  let baseS := if base_date.truthy then base_date.strftime else ""
  if !end_date.isDatetime then .error (.valueError (dateErrMsg "end_date")) else
  let endS := if end_date.truthy then end_date.strftime else ""
  if !resourcePathEnum.contains resource_path then
    .error (.valueError (enumErrMsg "resource_path" resourcePathEnum)) else
  match checkScope requiredScope9 granted with
  | some e => .error e
  | none =>
    .ok ⟨"get",
      pyReplace (pyReplace (pyReplace
        "/1/user/-/activities/{resource-path}/date/{base-date}/{end-date}.json"
        "{resource-path}" resource_path) "{base-date}" baseS) "{end-date}" endS, []⟩

/-- Model of `FitbitClient.get_activities_resource_by_date_period`
(source lines 346-399): date check, `resource_path` enum check, scope guard,
substitution — note the source performs no validation of `period`. -/
def get_activities_resource_by_date_period (granted : List String)
    (resource_path : String) (date : PyVal) (period : String) :
    Except PyErr EndpointCall :=
  if !date.isDatetime then .error (.valueError (dateErrMsg "date")) else
  let dateS := if date.truthy then date.strftime else ""
  if !resourcePathEnum.contains resource_path then
    .error (.valueError (enumErrMsg "resource_path" resourcePathEnum)) else
  match checkScope requiredScope9 granted with
  | some e => .error e
  | none =>
    .ok ⟨"get",
      pyReplace (pyReplace (pyReplace
        "/1/user/-/activities/{resource-path}/date/{date}/{period}.json"
        "{resource-path}" resource_path) "{date}" dateS) "{period}" period, []⟩

/-- Model of `FitbitClient.add_activities_log` (source lines 696-759): date
check, scope guard, then the parameter mapping — required parameters are
assigned unconditionally, the optional `activity_name` and `distance_unit`
only under `if <value>:`. -/
def add_activities_log (granted : List String)
    (activity_id manual_calories start_time duration_millis date distance
      activity_name distance_unit : PyVal) : Except PyErr EndpointCall :=
  if !date.isDatetime then .error (.valueError (dateErrMsg "date")) else
  let dateS := if date.truthy then date.strftime else ""
  match checkScope requiredScope9 granted with
  | some e => .error e
  | none =>
    let params :=
      [("activityId", activity_id)] ++
      (if activity_name.truthy then [("activityName", activity_name)] else []) ++
      [("manualCalories", manual_calories), ("startTime", start_time),
       ("durationMillis", duration_millis), ("date", PyVal.pystr dateS),
       ("distance", distance)] ++
      (if distance_unit.truthy then [("distanceUnit", distance_unit)] else [])
    .ok ⟨"post", "/1/user/-/activities.json", params⟩

/-- Model of `FitbitClient.get_activities_log_list` (source lines 818-877):
the optional dates are type-checked only when truthy
(`if before_date and not isinstance(before_date, datetime)`), normalized to
the empty string when falsy, and added to the mapping only when the
normalized string is
non-empty; `sort`, `offset` and `limit` are assigned unconditionally. -/
def get_activities_log_list (granted : List String)
    (sort offset limit before_date after_date : PyVal) :
    Except PyErr EndpointCall :=
  if before_date.truthy && !before_date.isDatetime then
    .error (.valueError (dateErrMsg "before_date")) else
  let beforeS := if before_date.truthy then before_date.strftime else ""
  if after_date.truthy && !after_date.isDatetime then
    .error (.valueError (dateErrMsg "after_date")) else
  let afterS := if after_date.truthy then after_date.strftime else ""
  match checkScope requiredScope9 granted with
  | some e => .error e
  | none =>
    let params :=
      (if strTruthy beforeS then [("beforeDate", PyVal.pystr beforeS)] else []) ++
      (if strTruthy afterS then [("afterDate", PyVal.pystr afterS)] else []) ++
      [("sort", sort), ("offset", offset), ("limit", limit)]
    .ok ⟨"get", "/1/user/-/activities/list.json", params⟩

/-- Model of `FitbitClient.update_profile` (source lines 3771-3863): the
method accepts twenty optional parameters and documents them as form fields,
validates `birthday` when truthy, runs the scope guard — and then calls
`self._post(endpoint, **kwargs)` without building any parameter mapping, so
beyond the validation of `birthday`, every supplied argument is discarded. -/
def update_profile (granted : List String)
    (gender birthday height about_me fullname country state city
      stride_length_walking stride_length_running weight_unit height_unit
      water_unit glucose_unit timezone foods_locale locale locale_lang
      locale_country start_day_of_week : PyVal) : Except PyErr EndpointCall :=
  if birthday.truthy && !birthday.isDatetime then
    .error (.valueError (dateErrMsg "birthday")) else
  let _birthdayS := if birthday.truthy then birthday.strftime else ""
  match checkScope requiredScope9 granted with
  | some e => .error e
  | none =>
    let _unused := [gender, height, about_me, fullname, country, state, city,
      stride_length_walking, stride_length_running, weight_unit, height_unit,
      water_unit, glucose_unit, timezone, foods_locale, locale, locale_lang,
      locale_country, start_day_of_week]
    .ok ⟨"post", "/1/user/-/profile.json", []⟩

/-- An HTTP response as seen by the dispatcher: status code, the optional
`Retry-After` header, and the (opaque) body text. -/
structure Response where
  status_code : Nat
  retry_after : Option String
  body : String
deriving DecidableEq, Repr

/-- The `response.ok` of the `requests` library: true exactly when
`status_code < 400`. -/
def Response.isOk (r : Response) : Bool := r.status_code < 400

/-- The outcome of one invocation of the external transport
`self.session.request`: it may raise `TokenExpiredError`, raise some other
exception, or return a response. -/
inductive Attempt where
  | tokenExpired
  | fail (msg : String)
  | respond (r : Response)
deriving DecidableEq, Repr

/-- A record of one transport invocation: the verb, absolute URL and
parameter mapping passed to `self.session.request`. -/
structure RequestRecord where
  method : String
  url : String
  params : List (String × PyVal)
deriving DecidableEq, Repr

/-- The observable side effects of one dispatch: every transport invocation,
in order, and the number of `refresh_token` calls. -/
structure Trace where
  requests : List RequestRecord
  refreshes : Nat
deriving DecidableEq, Repr

/-- What a dispatch returns when it does not raise: the raw response object
(when `full_response`), decoded JSON (modelled by the body text), or Python
`None` (the implicit fall-through for non-ok, non-429 statuses). -/
inductive DispatchValue where
  | raw (r : Response)
  | json (body : String)
  | noneVal
deriving DecidableEq, Repr

/-- The response-handling tail of `FitbitClient._request`: return the raw
response if `full_response`, decoded JSON if `response.ok`, raise
`RateLimitException` carrying the `Retry-After` header value on 429
(a `KeyError` if the header is absent), and fall through to `None`
otherwise. -/
def handleResponse (full_response : Bool) (r : Response) :
    Except PyErr DispatchValue :=
  if full_response then .ok (.raw r)
  else if r.isOk then .ok (.json r.body)
  else if r.status_code = 429 then
    match r.retry_after with
    | some v => .error (.rateLimit v)
    | none => .error (.keyError "Retry-After")
  else .ok .noneVal

/-- Model of `FitbitClient._request` (source lines 157-171). `transport n`
is the outcome of the n-th `self.session.request` invocation of this
dispatch; `refresh_result` is the outcome of `self.refresh_token()` (which
performs the token-endpoint call and the `token_updater` callback). The
source wraps only the first transport call in `try/except TokenExpiredError`;
after one successful refresh it repeats the request with the same `method`,
`url` and `params` and any exception of the second call propagates. -/
def dispatchRequest (transport : Nat → Attempt)
    (refresh_result : Except String Unit) (method endpoint : String)
    (params : List (String × PyVal)) (full_response : Bool) :
    Except PyErr DispatchValue × Trace :=
  let url := "https://api.fitbit.com" ++ endpoint
  let rec1 : RequestRecord := ⟨method, url, params⟩
  match transport 0 with
  | .respond r => (handleResponse full_response r, ⟨[rec1], 0⟩)
  | .fail m => (.error (.transportError m), ⟨[rec1], 0⟩)
  | .tokenExpired =>
    match refresh_result with
    | .error m => (.error (.transportError m), ⟨[rec1], 1⟩)
    | .ok _ =>
      match transport 1 with
      | .respond r => (handleResponse full_response r, ⟨[rec1, rec1], 1⟩)
      | .fail m => (.error (.transportError m), ⟨[rec1, rec1], 1⟩)
      | .tokenExpired => (.error .tokenExpired, ⟨[rec1, rec1], 1⟩)

/-- Composition of an endpoint method with the dispatcher: when the method
raises, no transport call happens at all; otherwise its call is dispatched
(with `full_response = false`, the default of `self._get`/`self._post`). -/
def runEndpoint (transport : Nat → Attempt) (refresh_result : Except String Unit)
    (r : Except PyErr EndpointCall) : Except PyErr DispatchValue × Trace :=
  match r with
  | .error e => (.error e, ⟨[], 0⟩)
  | .ok call =>
    dispatchRequest transport refresh_result call.method call.endpoint
      call.params false

/-- A scripted transport for concrete test runs: the n-th invocation yields
the n-th element of the script. -/
def transportOf (script : List Attempt) : Nat → Attempt :=
  fun n => script.getD n (.fail "no scripted outcome")

/-! Theorems. -/

/-- The scope guard passes exactly when every required scope is granted. -/
lemma checkScope_none {required granted : List String}
    (h : (required.all fun s => granted.contains s) = true) :
    checkScope required granted = none := by
  simp only [checkScope, h]
  simp

/-- The scope guard fails with the missing scopes when some required scope is
not granted. -/
lemma checkScope_some {required granted : List String}
    (h : (required.all fun s => granted.contains s) = false) :
    checkScope required granted =
      some (.insufficientScope (missingScope required granted)
        (scopeErrMsg (missingScope required granted))) := by
  simp only [checkScope, h]
  simp

/-- Every character produced by `digitChar` is a decimal digit. -/
lemma digitChar_isDigit (n : Nat) : (digitChar n).isDigit = true := by
  unfold digitChar
  have h : n % 10 < 10 := Nat.mod_lt n (by norm_num)
  revert h
  generalize n % 10 = k
  intro h
  interval_cases k <;> rfl

/-- C1: a dispatch whose first transport call raises token expiry performs
exactly one refresh and retries the original request exactly once, with the
same method, URL and params (the trace holds exactly two identical request
records, so there is no third attempt); if the retried request also fails —
with a generic transport exception or with token expiry again — that failure
propagates unmodified. -/
theorem c1_token_expiry_refresh_and_single_retry
    (transport : Nat → Attempt) (method endpoint : String)
    (params : List (String × PyVal)) (full_response : Bool)
    (h0 : transport 0 = Attempt.tokenExpired) :
    (dispatchRequest transport (.ok ()) method endpoint params
        full_response).2.refreshes = 1 ∧
    (dispatchRequest transport (.ok ()) method endpoint params
        full_response).2.requests =
      [⟨method, "https://api.fitbit.com" ++ endpoint, params⟩,
       ⟨method, "https://api.fitbit.com" ++ endpoint, params⟩] ∧
    (∀ m, transport 1 = Attempt.fail m →
      (dispatchRequest transport (.ok ()) method endpoint params
          full_response).1 = .error (.transportError m)) ∧
    (transport 1 = Attempt.tokenExpired →
      (dispatchRequest transport (.ok ()) method endpoint params
          full_response).1 = .error .tokenExpired) := by
  cases h1 : transport 1 <;> simp [dispatchRequest, h0, h1]

/-- Witness for C1 at a concrete scripted transport: the first call expires
the token, the retry fails, and the failure propagates after exactly one
refresh and exactly two identical transport calls. -/
theorem c1_witness :
    transportOf [.tokenExpired, .fail "boom"] 0 = Attempt.tokenExpired ∧
    (dispatchRequest (transportOf [.tokenExpired, .fail "boom"]) (.ok ())
        "get" "/1/user/-/activities.json" [] false).2.refreshes = 1 ∧
    (dispatchRequest (transportOf [.tokenExpired, .fail "boom"]) (.ok ())
        "get" "/1/user/-/activities.json" [] false).2.requests =
      [⟨"get", "https://api.fitbit.com/1/user/-/activities.json", []⟩,
       ⟨"get", "https://api.fitbit.com/1/user/-/activities.json", []⟩] ∧
    (dispatchRequest (transportOf [.tokenExpired, .fail "boom"]) (.ok ())
        "get" "/1/user/-/activities.json" [] false).1 =
      .error (.transportError "boom") :=
  ⟨rfl,
    (c1_token_expiry_refresh_and_single_retry
      (transportOf [.tokenExpired, .fail "boom"])
      "get" "/1/user/-/activities.json" [] false rfl).1,
    (c1_token_expiry_refresh_and_single_retry
      (transportOf [.tokenExpired, .fail "boom"])
      "get" "/1/user/-/activities.json" [] false rfl).2.1,
    (c1_token_expiry_refresh_and_single_retry
      (transportOf [.tokenExpired, .fail "boom"])
      "get" "/1/user/-/activities.json" [] false rfl).2.2.1 "boom" rfl⟩

/-- C2: calling `get_activities_by_date` (with a well-typed date argument) on
a session whose granted scopes do not cover the required-scope set raises
`InsufficientScope` naming exactly the missing scopes, and the composed run
performs zero transport calls. -/
theorem c2_insufficient_scope_raises_and_no_network
    (granted : List String) (d : Datetime) (transport : Nat → Attempt)
    (refresh_result : Except String Unit)
    (h : (requiredScope9.all fun s => granted.contains s) = false) :
    get_activities_by_date granted (.pydate d) =
      .error (.insufficientScope (missingScope requiredScope9 granted)
        (scopeErrMsg (missingScope requiredScope9 granted))) ∧
    (runEndpoint transport refresh_result
        (get_activities_by_date granted (.pydate d))).2.requests = [] := by
  have hmain : get_activities_by_date granted (.pydate d) =
      .error (.insufficientScope (missingScope requiredScope9 granted)
        (scopeErrMsg (missingScope requiredScope9 granted))) := by
    unfold get_activities_by_date
    rw [checkScope_some h]
    rfl
  exact ⟨hmain, by rw [hmain]; simp [runEndpoint]⟩

/-- Witness for C2: a session granted only the `activity` scope. -/
theorem c2_witness :
    (requiredScope9.all fun s => List.contains ["activity"] s) = false ∧
    get_activities_by_date ["activity"] (.pydate ⟨2023, 5, 1⟩) =
      .error (.insufficientScope (missingScope requiredScope9 ["activity"])
        (scopeErrMsg (missingScope requiredScope9 ["activity"]))) ∧
    (runEndpoint (transportOf []) (.ok ())
        (get_activities_by_date ["activity"] (.pydate ⟨2023, 5, 1⟩))).2.requests
      = [] :=
  ⟨rfl,
    (c2_insufficient_scope_raises_and_no_network ["activity"] ⟨2023, 5, 1⟩
      (transportOf []) (.ok ()) rfl).1,
    (c2_insufficient_scope_raises_and_no_network ["activity"] ⟨2023, 5, 1⟩
      (transportOf []) (.ok ()) rfl).2⟩

/-- C3: a dispatch whose response has status 429 raises
`RateLimitException` with `retry_after` equal to the `Retry-After` header
value, makes no automatic retry (exactly one transport call) and no
refresh. -/
theorem c3_rate_limit_raises_with_retry_after
    (transport : Nat → Attempt) (method endpoint : String)
    (params : List (String × PyVal)) (r : Response) (v : String)
    (h0 : transport 0 = Attempt.respond r) (h429 : r.status_code = 429)
    (hra : r.retry_after = some v) :
    (dispatchRequest transport (.ok ()) method endpoint params false).1 =
      .error (.rateLimit v) ∧
    (dispatchRequest transport (.ok ()) method endpoint params false).2 =
      ⟨[⟨method, "https://api.fitbit.com" ++ endpoint, params⟩], 0⟩ := by
  simp [dispatchRequest, h0, handleResponse, Response.isOk, h429, hra]

/-- Witness for C3: a scripted 429 response with a `Retry-After` of 3600. -/
theorem c3_witness :
    transportOf [.respond ⟨429, some "3600", ""⟩] 0 =
      Attempt.respond ⟨429, some "3600", ""⟩ ∧
    (dispatchRequest (transportOf [.respond ⟨429, some "3600", ""⟩]) (.ok ())
        "get" "/1/foods/log/water.json" [] false).1 =
      .error (.rateLimit "3600") ∧
    (dispatchRequest (transportOf [.respond ⟨429, some "3600", ""⟩]) (.ok ())
        "get" "/1/foods/log/water.json" [] false).2 =
      ⟨[⟨"get", "https://api.fitbit.com/1/foods/log/water.json", []⟩], 0⟩ :=
  ⟨rfl,
    (c3_rate_limit_raises_with_retry_after
      (transportOf [.respond ⟨429, some "3600", ""⟩])
      "get" "/1/foods/log/water.json" [] ⟨429, some "3600", ""⟩ "3600"
      rfl rfl rfl).1,
    (c3_rate_limit_raises_with_retry_after
      (transportOf [.respond ⟨429, some "3600", ""⟩])
      "get" "/1/foods/log/water.json" [] ⟨429, some "3600", ""⟩ "3600"
      rfl rfl rfl).2⟩

/-- C4: a dispatch whose response has a non-success status (in the sense of
`response.ok`, i.e. status at least 400) other than 429, without
`full_response`, raises nothing and returns Python `None`. -/
theorem c4_other_failures_return_none
    (transport : Nat → Attempt) (method endpoint : String)
    (params : List (String × PyVal)) (r : Response)
    (h0 : transport 0 = Attempt.respond r) (hnotok : r.isOk = false)
    (h429 : r.status_code ≠ 429) :
    (dispatchRequest transport (.ok ()) method endpoint params false).1 =
      .ok .noneVal := by
  simp [dispatchRequest, h0, handleResponse, hnotok, h429]

/-- Witness for C4: a 500 response is swallowed and the dispatch returns
`None`. -/
theorem c4_witness :
    transportOf [.respond ⟨500, none, ""⟩] 0 = Attempt.respond ⟨500, none, ""⟩ ∧
    Response.isOk ⟨500, none, ""⟩ = false ∧
    (500 : Nat) ≠ 429 ∧
    (dispatchRequest (transportOf [.respond ⟨500, none, ""⟩]) (.ok ())
        "get" "/1/user/-/profile.json" [] false).1 = .ok .noneVal :=
  ⟨rfl, rfl, by decide,
    c4_other_failures_return_none (transportOf [.respond ⟨500, none, ""⟩])
      "get" "/1/user/-/profile.json" [] ⟨500, none, ""⟩ rfl rfl (by decide)⟩

/-- C5: with every scope of `ALL_SCOPES` granted, requesting the activity
summary for 2023-05-01 produces a GET of exactly the literal path of the
claim (under the user segment: `activities/date/2023-05-01.json`), and the
dispatcher is invoked with exactly that URL (prefixed by the base host) on
its first transport call. -/
theorem c5_path_substitution_all_scopes
    (granted : List String) (transport : Nat → Attempt)
    (refresh_result : Except String Unit)
    (h : (ALL_SCOPES.all fun s => granted.contains s) = true) :
    get_activities_by_date granted (.pydate ⟨2023, 5, 1⟩) =
      .ok ⟨"get", "/1/user/-/activities/date/2023-05-01.json", []⟩ ∧
    (runEndpoint transport refresh_result
        (get_activities_by_date granted (.pydate ⟨2023, 5, 1⟩))).2.requests.head?
      = some ⟨"get",
          "https://api.fitbit.com/1/user/-/activities/date/2023-05-01.json",
          []⟩ := by
  have h9 : (requiredScope9.all fun s => granted.contains s) = true := by
    simp [ALL_SCOPES, List.all_cons, Bool.and_eq_true] at h
    simp [requiredScope9, List.all_cons, Bool.and_eq_true]
    tauto
  have hmain : get_activities_by_date granted (.pydate ⟨2023, 5, 1⟩) =
      .ok ⟨"get", "/1/user/-/activities/date/2023-05-01.json", []⟩ := by
    unfold get_activities_by_date
    rw [checkScope_none h9]
    rfl
  refine ⟨hmain, ?_⟩
  rw [hmain]
  unfold runEndpoint dispatchRequest
  cases h0 : transport 0 <;> cases refresh_result <;> cases h1 : transport 1 <;>
    simp [h0, h1, handleResponse]

/-- Witness for C5: the session granted exactly `ALL_SCOPES`. -/
theorem c5_witness :
    (ALL_SCOPES.all fun s => ALL_SCOPES.contains s) = true ∧
    get_activities_by_date ALL_SCOPES (.pydate ⟨2023, 5, 1⟩) =
      .ok ⟨"get", "/1/user/-/activities/date/2023-05-01.json", []⟩ ∧
    (runEndpoint (transportOf [.respond ⟨200, none, ""⟩]) (.ok ())
        (get_activities_by_date ALL_SCOPES (.pydate ⟨2023, 5, 1⟩))).2.requests.head?
      = some ⟨"get",
          "https://api.fitbit.com/1/user/-/activities/date/2023-05-01.json",
          []⟩ :=
  ⟨rfl,
    (c5_path_substitution_all_scopes ALL_SCOPES
      (transportOf [.respond ⟨200, none, ""⟩]) (.ok ()) rfl).1,
    (c5_path_substitution_all_scopes ALL_SCOPES
      (transportOf [.respond ⟨200, none, ""⟩]) (.ok ()) rfl).2⟩

/-- C6 counterexample: the claim asserts that every enumerated path
parameter — including `period`, whose documented options are 1d, 7d, 30d,
1w, 1m, 3m, 6m, 1y, max — rejects undocumented values with a `ValueError`;
but `get_activities_resource_by_date_period` performs no validation of
`period` at all, and the undocumented value `bogus` is substituted into the
path without any error. -/
theorem c6_counterexample :
    get_activities_resource_by_date_period ALL_SCOPES "steps"
      (.pydate ⟨2023, 5, 1⟩) "bogus" =
      .ok ⟨"get", "/1/user/-/activities/steps/date/2023-05-01/bogus.json", []⟩ :=
  rfl

/-- C6 as amended: for the `resource_path` parameter the claim holds — a
value outside the eleven-value allow-list raises `ValueError` listing the
permitted values (in both the date-range and the date-period endpoint), and
every allowed value is accepted; the `period` parameter, however, is not
validated: any string whatsoever is substituted verbatim into the path. -/
theorem c6_resource_path_enum_validation
    (granted : List String) (rp : String) (d : Datetime) (period : String)
    (hscope : (requiredScope9.all fun s => granted.contains s) = true) :
    (resourcePathEnum.contains rp = false →
      get_activities_resource_by_date_period granted rp (.pydate d) period =
        .error (.valueError (enumErrMsg "resource_path" resourcePathEnum))) ∧
    (resourcePathEnum.contains rp = true →
      get_activities_resource_by_date_period granted rp (.pydate d) period =
        .ok ⟨"get",
          pyReplace (pyReplace (pyReplace
            "/1/user/-/activities/{resource-path}/date/{date}/{period}.json"
            "{resource-path}" rp) "{date}" (strftimeYMD d)) "{period}" period,
          []⟩) ∧
    (resourcePathEnum.contains rp = false →
      get_activities_resource_by_date_range granted rp (.pydate d) (.pydate d)
        = .error (.valueError (enumErrMsg "resource_path" resourcePathEnum))) := by
  refine ⟨fun hrp => ?_, fun hrp => ?_, fun hrp => ?_⟩
  · unfold get_activities_resource_by_date_period
    rw [hrp]
    rfl
  · unfold get_activities_resource_by_date_period
    rw [hrp, checkScope_none hscope]
    rfl
  · unfold get_activities_resource_by_date_range
    rw [hrp]
    rfl

/-- Witness for C6: `steps` is in the allow-list and accepted; the path is
built by substitution (with an arbitrary period, here the documented 1d). -/
theorem c6_witness :
    (requiredScope9.all fun s => ALL_SCOPES.contains s) = true ∧
    resourcePathEnum.contains "steps" = true ∧
    get_activities_resource_by_date_period ALL_SCOPES "steps"
      (.pydate ⟨2023, 5, 1⟩) "1d" =
      .ok ⟨"get",
        pyReplace (pyReplace (pyReplace
          "/1/user/-/activities/{resource-path}/date/{date}/{period}.json"
          "{resource-path}" "steps") "{date}" (strftimeYMD ⟨2023, 5, 1⟩))
          "{period}" "1d",
        []⟩ :=
  ⟨rfl, rfl,
    (c6_resource_path_enum_validation ALL_SCOPES "steps" ⟨2023, 5, 1⟩ "1d"
      rfl).2.1 rfl⟩

/-- C7 (code bug): `add_activities_log` follows the documented pattern —
required parameters always present, optional ones present exactly when
truthy — but `update_profile`, whose docstring documents twenty optional
form parameters, posts with an empty parameter mapping, silently discarding
even a supplied truthy value such as `gender = 'MALE'`. -/
theorem c7_update_profile_discards_params :
    PyVal.truthy (.pystr "MALE") = true ∧
    update_profile ALL_SCOPES (.pystr "MALE") .pynone .pynone .pynone .pynone
        .pynone .pynone .pynone .pynone .pynone .pynone .pynone .pynone
        .pynone .pynone .pynone .pynone .pynone .pynone .pynone =
      .ok ⟨"post", "/1/user/-/profile.json", []⟩ ∧
    add_activities_log ALL_SCOPES (.pyint 90013) (.pyint 300)
        (.pystr "12:00:00") (.pyint 600000) (.pydate ⟨2023, 5, 1⟩)
        (.pyint 5) .pynone .pynone =
      .ok ⟨"post", "/1/user/-/activities.json",
        [("activityId", .pyint 90013), ("manualCalories", .pyint 300),
         ("startTime", .pystr "12:00:00"), ("durationMillis", .pyint 600000),
         ("date", .pystr "2023-05-01"), ("distance", .pyint 5)]⟩ ∧
    add_activities_log ALL_SCOPES (.pyint 90013) (.pyint 300)
        (.pystr "12:00:00") (.pyint 600000) (.pydate ⟨2023, 5, 1⟩)
        (.pyint 5) .pynone (.pyint 2) =
      .ok ⟨"post", "/1/user/-/activities.json",
        [("activityId", .pyint 90013), ("manualCalories", .pyint 300),
         ("startTime", .pystr "12:00:00"), ("durationMillis", .pyint 600000),
         ("date", .pystr "2023-05-01"), ("distance", .pyint 5),
         ("distanceUnit", .pyint 2)]⟩ :=
  ⟨rfl, rfl, rfl, rfl⟩

/-- C8 counterexample: the claim asserts that passing a non-datetime value
for a date-typed parameter raises `ValueError`; but the optional
`before_date` of `get_activities_log_list`, passed the falsy non-datetime
`0`, raises nothing — the guard `if before_date and not isinstance(...)` is
skipped and the value is treated as omitted. -/
theorem c8_counterexample :
    PyVal.isDatetime (.pyint 0) = false ∧
    get_activities_log_list ALL_SCOPES (.pystr "asc") (.pyint 10)
      (.pyint 100) (.pyint 0) .pynone =
      .ok ⟨"get", "/1/user/-/activities/list.json",
        [("sort", .pystr "asc"), ("offset", .pyint 10),
         ("limit", .pyint 100)]⟩ :=
  ⟨rfl, rfl⟩

/-- C8 as amended: a required date parameter (such as `date` of
`get_activities_by_date`) raises `ValueError` on any non-datetime value; an
optional date parameter (such as `before_date` of `get_activities_log_list`)
raises only on truthy non-datetime values, while falsy values are treated as
omitted; a valid datetime serializes to exactly `YYYY-MM-DD`, both as a
standalone string and in the outgoing parameter mapping. -/
theorem c8_date_validation_and_format
    (granted : List String) (v sort offset limit : PyVal) (d : Datetime)
    (hscope : (requiredScope9.all fun s => granted.contains s) = true) :
    (v.isDatetime = false →
      get_activities_by_date granted v =
        .error (.valueError (dateErrMsg "date"))) ∧
    (v.truthy = true → v.isDatetime = false →
      get_activities_log_list granted sort offset limit v .pynone =
        .error (.valueError (dateErrMsg "before_date"))) ∧
    (v.truthy = false →
      get_activities_log_list granted sort offset limit v .pynone =
        .ok ⟨"get", "/1/user/-/activities/list.json",
          [("sort", sort), ("offset", offset), ("limit", limit)]⟩) ∧
    (get_activities_log_list granted sort offset limit (.pydate d) .pynone =
      .ok ⟨"get", "/1/user/-/activities/list.json",
        [("beforeDate", .pystr (strftimeYMD d)), ("sort", sort),
         ("offset", offset), ("limit", limit)]⟩) ∧
    (d.validB = true → isYMD (strftimeYMD d) = true) := by
  refine ⟨fun hv => ?_, fun ht hv => ?_, fun ht => ?_, ?_, fun _ => ?_⟩
  · unfold get_activities_by_date
    rw [hv]
    rfl
  · unfold get_activities_log_list
    rw [ht, hv]
    rfl
  · unfold get_activities_log_list
    rw [ht, checkScope_none hscope]
    rfl
  · unfold get_activities_log_list
    rw [checkScope_none hscope]
    rfl
  · unfold isYMD strftimeYMD pad4 pad2
    simp [isYMDChars, List.cons_append, List.nil_append, digitChar_isDigit]

/-- Witness for C8 at concrete inputs: the falsy non-datetime `0` is treated
as omitted, a concrete datetime lands in the mapping as `2023-05-01`, and
the rendered string has the `YYYY-MM-DD` shape. -/
theorem c8_witness :
    (requiredScope9.all fun s => ALL_SCOPES.contains s) = true ∧
    PyVal.truthy (.pyint 0) = false ∧
    get_activities_log_list ALL_SCOPES (.pystr "desc") (.pyint 0) (.pyint 20)
      (.pyint 0) .pynone =
      .ok ⟨"get", "/1/user/-/activities/list.json",
        [("sort", .pystr "desc"), ("offset", .pyint 0),
         ("limit", .pyint 20)]⟩ ∧
    Datetime.validB ⟨2023, 5, 1⟩ = true ∧
    isYMD (strftimeYMD ⟨2023, 5, 1⟩) = true :=
  ⟨rfl, rfl,
    (c8_date_validation_and_format ALL_SCOPES (.pyint 0) (.pystr "desc")
      (.pyint 0) (.pyint 20) ⟨2023, 5, 1⟩ rfl).2.2.1 rfl,
    rfl,
    (c8_date_validation_and_format ALL_SCOPES (.pyint 0) (.pystr "desc")
      (.pyint 0) (.pyint 20) ⟨2023, 5, 1⟩ rfl).2.2.2.2 rfl⟩

/-- C9 counterexample: `ALL_SCOPES` holds ten string literals but they are
not distinct — `nutrition` appears twice, so only nine distinct scopes are
in the default vocabulary. -/
theorem c9_counterexample :
    ALL_SCOPES.length = 10 ∧ ALL_SCOPES.dedup.length = 9 ∧
    ALL_SCOPES.count "nutrition" = 2 := by
  refine ⟨rfl, ?_, ?_⟩ <;> decide

/-- C9 as amended: the default scope vocabulary is a fixed list of ten
string literals of which nine are distinct (`nutrition` is duplicated), and
it is used whenever the caller passes no scope subset (a falsy `scope`
argument). -/
theorem c9_scope_vocabulary
    (l : List String) (hl : l ≠ []) :
    ALL_SCOPES.length = 10 ∧ ALL_SCOPES.dedup.length = 9 ∧
    resolveScope none = ALL_SCOPES ∧ resolveScope (some []) = ALL_SCOPES ∧
    resolveScope (some l) = l := by
  refine ⟨rfl, by decide, rfl, rfl, ?_⟩
  simp [resolveScope, hl]

/-- Witness for C9: an explicit non-empty scope subset is kept as given. -/
theorem c9_witness :
    (["activity"] : List String) ≠ [] ∧
    resolveScope (some ["activity"]) = ["activity"] :=
  ⟨by decide, (c9_scope_vocabulary ["activity"] (by decide)).2.2.2.2⟩

/-- C10: a dispatch with `full_response = True` returns the raw response
object for every HTTP status — the status branches (JSON decoding, 429
handling, the silent `None`) are never reached — both when the response
arrives on the first attempt and when it arrives on the post-refresh
retry. -/
theorem c10_full_response_returns_raw
    (transport : Nat → Attempt) (method endpoint : String)
    (params : List (String × PyVal)) (r : Response) :
    (transport 0 = Attempt.respond r →
      (dispatchRequest transport (.ok ()) method endpoint params true).1 =
        .ok (.raw r)) ∧
    (transport 0 = Attempt.tokenExpired → transport 1 = Attempt.respond r →
      (dispatchRequest transport (.ok ()) method endpoint params true).1 =
        .ok (.raw r)) := by
  constructor
  · intro h0
    simp [dispatchRequest, h0, handleResponse]
  · intro h0 h1
    simp [dispatchRequest, h0, h1, handleResponse]

/-- Witness for C10: a 429 response requested with `full_response = True` is
handed back raw — no `RateLimitException` is raised. -/
theorem c10_witness :
    transportOf [.respond ⟨429, some "3600", "body"⟩] 0 =
      Attempt.respond ⟨429, some "3600", "body"⟩ ∧
    (dispatchRequest (transportOf [.respond ⟨429, some "3600", "body"⟩])
        (.ok ()) "get" "/1/user/-/profile.json" [] true).1 =
      .ok (.raw ⟨429, some "3600", "body"⟩) :=
  ⟨rfl,
    (c10_full_response_returns_raw
      (transportOf [.respond ⟨429, some "3600", "body"⟩])
      "get" "/1/user/-/profile.json" [] ⟨429, some "3600", "body"⟩).1 rfl⟩

end FitbitApi
